import Mathlib

/-!
Shallow embedding of the request-governor core of `Scanagram.py`:
the class `IntelligentRateLimiter` (methods `wait_if_needed`,
`record_request`, `_sleep_with_progress`, `get_stats`) and the retry
decorator `retry_with_backoff`.

Time is modelled by ℚ (seconds); `datetime` subtraction and
`timedelta(hours=1)` become rational arithmetic (1 hour = 3600 s).
Random draws (`random.uniform`) are passed in as explicit parameters, so
every theorem quantifies over the drawn value.  Sleeping is modelled by
recording the slept duration; the wall clock visible to the code is the
single `now` captured by `datetime.now()` at the top of `wait_if_needed`,
exactly as in the source.
-/

namespace Scanagram

/-- The `rate_limit` sub-dictionary of `CONFIG` (Scanagram.py lines 77-83).
`max_delay` of that dict is never read by the rate limiter and is omitted. -/
structure GovConfig where
  requests_per_hour : ℕ
  min_delay : ℚ
  burst_limit : ℕ
  cooldown_after_burst : ℚ
deriving Repr, DecidableEq

/-- Default configuration from `CONFIG["rate_limit"]`. -/
def defaultGovConfig : GovConfig :=
  { requests_per_hour := 180, min_delay := 2, burst_limit := 10,
    cooldown_after_burst := 60 }

/-- The dataclass `RateLimitState` (lines 137-146).  The `window_start`
field is never read or written anywhere in the source and is omitted.
In Python `cooldown_until` starts as `None`, but it is only ever read
while `is_cooling_down` is true, and every write of `is_cooling_down :=
True` writes `cooldown_until` at the same time; so it is modelled as a
plain rational (initially 0). -/
structure RateLimitState where
  requests_made : ℕ
  last_request : Option ℚ
  burst_count : ℕ
  burst_start : Option ℚ
  is_cooling_down : Bool
  cooldown_until : ℚ
deriving Repr, DecidableEq

/-- Value of `RateLimitState()` with dataclass defaults. -/
def initState : RateLimitState :=
  { requests_made := 0, last_request := none, burst_count := 0,
    burst_start := none, is_cooling_down := false, cooldown_until := 0 }

/-- Model of `_sleep_with_progress` (lines 337-348): a requested duration below 5
seconds is slept exactly; otherwise `steps = int(seconds)` whole seconds
are slept (Python `int()` truncates; the argument is ≥ 5 there, so this
is the floor).  The returned value is the realized sleep duration. -/
def sleepWithProgress (seconds : ℚ) : ℚ :=
  if seconds < 5 then seconds else (⌊seconds⌋ : ℚ)

/-- Step 1 of `wait_if_needed` (lines 269-277): the cooldown check.
Returns the updated state and the realized sleep.  When `now` is still
before `cooldown_until` the code only sleeps — the flag and
`burst_count` are untouched; they are cleared in the `else` branch,
i.e. by a call that begins at or after `cooldown_until`. -/
def cooldownStep (s : RateLimitState) (now : ℚ) : RateLimitState × ℚ :=
  if s.is_cooling_down then
    if now < s.cooldown_until then
      (s, sleepWithProgress (s.cooldown_until - now))
    else
      ({ s with is_cooling_down := false, burst_count := 0 }, 0)
  else (s, 0)

/-- Python `min` of a nonempty list (`min(recent_requests)`, line 285);
the `[]` case is unreachable at its call site because the list there has
length ≥ `requests_per_hour` ≥ 1. -/
def pythonMin (l : List ℚ) : ℚ :=
  match l with
  | [] => 0
  | x :: xs => xs.foldl min x

/-- Step 2 of `wait_if_needed` (lines 279-291): the rolling-window
quota check.  `recent_requests` keeps timestamps strictly greater than
`now - 1 hour`; when its size reaches `requests_per_hour` the code
sleeps until `min(recent) + 1 hour` — through `_sleep_with_progress`,
so the realized sleep is the floor of the computed wait when ≥ 5 s. -/
def quotaStep (cfg : GovConfig) (history : List ℚ) (now : ℚ) : ℚ :=
  let recent := history.filter (fun t => now - 3600 < t)
  if cfg.requests_per_hour ≤ recent.length then
    sleepWithProgress (pythonMin recent + 3600 - now)
  else 0

/-- Step 3 of `wait_if_needed` (lines 293-303): minimum spacing.  `u` is
the draw of `random.uniform(-0.3, 0.3)`; the code sleeps
`max 0 (wait_time + u * wait_time)` via plain `time.sleep`. -/
def spacingStep (cfg : GovConfig) (s : RateLimitState) (now u : ℚ) : ℚ :=
  match s.last_request with
  | none => 0
  | some lr =>
    let time_since_last := now - lr
    if time_since_last < cfg.min_delay then
      let wait_time := cfg.min_delay - time_since_last
      let jitter := u * wait_time
      max 0 (wait_time + jitter)
    else 0

/-- Step 4 of `wait_if_needed` (lines 305-323): burst detection.  Inside
a live window (`now - burst_start < 10`) the counter is incremented and,
on reaching `burst_limit`, cooldown is armed and `cooldown_after_burst`
is slept; an expired or absent window is reset to `(now, 1)`. -/
def burstStep (cfg : GovConfig) (s : RateLimitState) (now : ℚ) :
    RateLimitState × ℚ :=
  match s.burst_start with
  | some bs =>
    if now - bs < 10 then
      let bc := s.burst_count + 1
      if cfg.burst_limit ≤ bc then
        ({ s with is_cooling_down := true,
                  cooldown_until := now + cfg.cooldown_after_burst,
                  burst_count := 0 },
         sleepWithProgress cfg.cooldown_after_burst)
      else ({ s with burst_count := bc }, 0)
    else ({ s with burst_start := some now, burst_count := 1 }, 0)
  | none => ({ s with burst_start := some now, burst_count := 1 }, 0)

/-- Result of one `wait_if_needed` call: the final state and the realized
sleep of each of the five steps. -/
structure AdmitResult where
  state : RateLimitState
  cooldownWait : ℚ
  quotaWait : ℚ
  spacingWait : ℚ
  burstWait : ℚ
  humanWait : ℚ
deriving Repr, DecidableEq

/-- Model of `IntelligentRateLimiter.wait_if_needed` (lines 259-328).  `now` is
`datetime.now()` captured once at line 267 and reused by every step —
sleeps performed by earlier steps do not advance it.  `u` is the spacing
jitter draw, `hu` the `random.uniform(0.5, 2.0)` humanization draw, and
`randomize` is `CONFIG["stealth"]["randomize_timing"]`. -/
def wait_if_needed (cfg : GovConfig) (randomize : Bool) (s : RateLimitState)
    (history : List ℚ) (now u hu : ℚ) : AdmitResult :=
  let c1 := cooldownStep s now
  let qw := quotaStep cfg history now
  let sw := spacingStep cfg c1.1 now u
  let b := burstStep cfg c1.1 now
  let hw := if randomize then hu else 0
  { state := b.1, cooldownWait := c1.2, quotaWait := qw,
    spacingWait := sw, burstWait := b.2, humanWait := hw }

/-- Total realized sleep of one admission call. -/
def totalWait (r : AdmitResult) : ℚ :=
  r.cooldownWait + r.quotaWait + r.spacingWait + r.burstWait + r.humanWait

/-- Append of `t` to a `deque(maxlen=200)` (line 257 / 333): append on the right,
evicting from the left when the length would exceed 200. -/
def dequeAppend (h : List ℚ) (t : ℚ) : List ℚ :=
  let h2 := h ++ [t]
  if h2.length ≤ 200 then h2 else h2.drop (h2.length - 200)

/-- Model of `IntelligentRateLimiter.record_request` (lines 330-335). -/
def record_request (s : RateLimitState) (history : List ℚ) (now : ℚ) :
    RateLimitState × List ℚ :=
  ({ s with last_request := some now, requests_made := s.requests_made + 1 },
   dequeAppend history now)

/-- The `retry` sub-dictionary of `CONFIG` (lines 86-92). -/
structure RetryConfig where
  max_attempts : ℕ
  base_delay : ℚ
  max_delay : ℚ
  exponential_base : ℚ
  jitter : ℚ
deriving Repr, DecidableEq

/-- Default configuration from `CONFIG["retry"]`. -/
def defaultRetryConfig : RetryConfig :=
  { max_attempts := 3, base_delay := 5, max_delay := 300,
    exponential_base := 2, jitter := 3/10 }

/-- Classification of the exceptions the retry wrapper distinguishes
(lines 462-470): the three instaloader exceptions that are re-raised at
once, `requests.exceptions.RequestException`, and everything else
(`ConnectionException` and generic exceptions behave identically). -/
inductive ErrClass
  | loginRequired
  | privateNotFollowed
  | profileNotExists
  | requestException
  | connectionError
  | generic
deriving Repr, DecidableEq

/-- The `isinstance(e, (LoginRequiredException,
PrivateProfileNotFollowedException, ProfileNotExistsException))` test of
line 469: the error classes that are never retried. -/
def ErrClass.isNonRetryableTerminal : ErrClass → Bool
  | .loginRequired => true
  | .privateNotFollowed => true
  | .profileNotExists => true
  | _ => false

/-- The `isinstance(e, requests.exceptions.RequestException)` test of
line 464 (`REQUESTS_AVAILABLE` is true whenever `requests` imports). -/
def ErrClass.isRequestException : ErrClass → Bool
  | .requestException => true
  | _ => false

/-- Backoff delay of lines 477-479: `delay = base_delay *
exponential_base ^ attempt`, `jitter = u * delay` with `u` the draw of
`random.uniform(-jitter, jitter)`, slept duration
`min (delay + jitter) max_delay`. -/
def nextDelay (c : RetryConfig) (attempt : ℕ) (u : ℚ) : ℚ :=
  let delay := c.base_delay * c.exponential_base ^ attempt
  let jitter := u * delay
  min (delay + jitter) c.max_delay

/-- Observable outcome of one run of the retry wrapper: the propagated
result (`none` models Python returning `None` after a zero-iteration
loop), the number of invocations of the wrapped function, and the
backoff sleeps performed. -/
structure RunResult (α : Type) where
  result : Option (Except ErrClass α)
  calls : ℕ
  sleeps : List ℚ
deriving Repr

/-- Loop body of the wrapper in `retry_with_backoff` (lines 459-483),
fuelled by the number of remaining iterations.  On an exception the code
(1) re-raises a `RequestException` iff this was the last attempt,
(2) re-raises the three non-retryable instaloader exceptions,
(3) re-raises any error on the last attempt, and otherwise
(4) sleeps `nextDelay` and retries.  `op` maps the attempt index to that
outcome of that attempt; `js` maps it to the jitter draw of that attempt. -/
def retryGo {α : Type} (c : RetryConfig) (maxA : ℕ)
    (op : ℕ → Except ErrClass α) (js : ℕ → ℚ) :
    ℕ → ℕ → ℕ → List ℚ → RunResult α
  | 0, _, calls, sleeps => ⟨none, calls, sleeps⟩
  | fuel + 1, attempt, calls, sleeps =>
    match op attempt with
    | .ok v => ⟨some (.ok v), calls + 1, sleeps⟩
    | .error e =>
      if e.isRequestException = true ∧ attempt = maxA - 1 then
        ⟨some (.error e), calls + 1, sleeps⟩
      else if e.isNonRetryableTerminal = true then
        ⟨some (.error e), calls + 1, sleeps⟩
      else if attempt = maxA - 1 then
        ⟨some (.error e), calls + 1, sleeps⟩
      else
        retryGo c maxA op js fuel (attempt + 1) (calls + 1)
          (sleeps ++ [nextDelay c attempt (js attempt)])

/-- Model of `retry_with_backoff(max_attempts)` applied to an operation: run the
loop `for attempt in range(max_attempts)`. -/
def retry_with_backoff {α : Type} (c : RetryConfig) (maxA : ℕ)
    (op : ℕ → Except ErrClass α) (js : ℕ → ℚ) : RunResult α :=
  retryGo c maxA op js maxA 0 0 []

/-! ### Helper lemmas -/

/-- The realized sleep never exceeds the requested duration. -/
lemma sleepWithProgress_le (d : ℚ) : sleepWithProgress d ≤ d := by
  unfold sleepWithProgress
  split
  · exact le_refl d
  · exact Int.floor_le d

/-- The realized sleep falls short of the requested duration by less
than one second. -/
lemma sub_one_lt_sleepWithProgress (d : ℚ) : d - 1 < sleepWithProgress d := by
  unfold sleepWithProgress
  split
  · linarith
  · exact Int.sub_one_lt_floor d

/-- The cooldown check never touches `last_request`. -/
lemma cooldownStep_last_request (s : RateLimitState) (now : ℚ) :
    (cooldownStep s now).1.last_request = s.last_request := by
  unfold cooldownStep
  split <;> [skip; rfl]
  split <;> rfl

/-- The cooldown check never touches `burst_start`. -/
lemma cooldownStep_burst_start (s : RateLimitState) (now : ℚ) :
    (cooldownStep s now).1.burst_start = s.burst_start := by
  unfold cooldownStep
  split <;> [skip; rfl]
  split <;> rfl

/-- Burst detection never clears the cooldown flag. -/
lemma burstStep_cooling (cfg : GovConfig) (s : RateLimitState) (now : ℚ)
    (h : s.is_cooling_down = true) :
    (burstStep cfg s now).1.is_cooling_down = true := by
  unfold burstStep
  cases s.burst_start <;> simp
  · exact h
  · split
    · split <;> simp [h]
    · simp [h]

/-! ### Claim theorems -/

/-- C10: a cooldown or quota suspension goes through the sleep helper of
lines 337-348; for a requested duration `d ≥ 5` seconds it sleeps
exactly `⌊d⌋` whole seconds — so the realized wait is at most `d` and
more than `d - 1`, i.e. up to one second shorter than requested — and
for `d < 5` it sleeps exactly `d`. -/
theorem sleep_helper_floors (d : ℚ) :
    (5 ≤ d → sleepWithProgress d = (⌊d⌋ : ℚ) ∧
      d - 1 < sleepWithProgress d ∧ sleepWithProgress d ≤ d) ∧
    (d < 5 → sleepWithProgress d = d) := by
  constructor
  · intro h5
    refine ⟨?_, sub_one_lt_sleepWithProgress d, sleepWithProgress_le d⟩
    unfold sleepWithProgress
    rw [if_neg (not_lt.mpr h5)]
  · intro h5
    unfold sleepWithProgress
    rw [if_pos h5]

/-- Witness for C10 at `d = 13/2`. -/
theorem sleep_helper_floors_witness :
    sleepWithProgress (13/2) = (⌊(13/2 : ℚ)⌋ : ℚ) ∧
    (13/2 : ℚ) - 1 < sleepWithProgress (13/2) ∧
    sleepWithProgress (13/2) ≤ 13/2 :=
  (sleep_helper_floors (13/2)).1 (by norm_num)

/-- C1 (amended): an admission call that begins while `now <
cooldown_until` sleeps the realized form of `cooldown_until - now` but
leaves `is_cooling_down` set — the flag and `burst_count` are cleared by
the cooldown check of the first admission call that begins at or after
`cooldown_until`, not within the waiting call. -/
theorem cooldown_clears_on_next_call (cfg : GovConfig) (randomize : Bool)
    (s : RateLimitState) (hist : List ℚ) (now u hu : ℚ)
    (hcool : s.is_cooling_down = true) :
    (now < s.cooldown_until →
      (wait_if_needed cfg randomize s hist now u hu).cooldownWait
          = sleepWithProgress (s.cooldown_until - now) ∧
      (wait_if_needed cfg randomize s hist now u hu).state.is_cooling_down
          = true) ∧
    (s.cooldown_until ≤ now →
      (wait_if_needed cfg randomize s hist now u hu).cooldownWait = 0 ∧
      (cooldownStep s now).1.is_cooling_down = false ∧
      (cooldownStep s now).1.burst_count = 0) := by
  constructor
  · intro hlt
    have hc : cooldownStep s now = (s, sleepWithProgress (s.cooldown_until - now)) := by
      unfold cooldownStep
      rw [if_pos hcool, if_pos hlt]
    constructor
    · simp [wait_if_needed, hc]
    · simp only [wait_if_needed, hc]
      exact burstStep_cooling cfg s now hcool
  · intro hge
    have hc : cooldownStep s now
        = ({ s with is_cooling_down := false, burst_count := 0 }, 0) := by
      unfold cooldownStep
      rw [if_pos hcool, if_neg (not_lt.mpr hge)]
    refine ⟨?_, ?_, ?_⟩ <;> simp [wait_if_needed, hc]

/-- Witness for C1: a call starting at `now = 4` against
`cooldown_until = 10` sleeps 6 seconds and keeps the flag. -/
theorem cooldown_clears_on_next_call_witness :
    (wait_if_needed defaultGovConfig false
        { initState with is_cooling_down := true, cooldown_until := 10,
                         burst_count := 3 } [] 4 0 0).cooldownWait
        = sleepWithProgress (10 - 4) ∧
    (wait_if_needed defaultGovConfig false
        { initState with is_cooling_down := true, cooldown_until := 10,
                         burst_count := 3 } [] 4 0 0).state.is_cooling_down
        = true :=
  (cooldown_clears_on_next_call defaultGovConfig false
      { initState with is_cooling_down := true, cooldown_until := 10,
                       burst_count := 3 } [] 4 0 0 rfl).1 (by norm_num)

/-- C1 counterexample: a call beginning in cooldown (`now = 4 <
cooldown_until = 10`) performs its cooldown sleep but returns with
`is_cooling_down` still `true` and `burst_count` untouched by the
cooldown check, contradicting the claim that the same call clears the
cooldown flag and resets `burst_count` to 0. -/
theorem cooldown_not_cleared_in_same_call :
    (wait_if_needed defaultGovConfig false
        { initState with is_cooling_down := true, cooldown_until := 10,
                         burst_count := 3, burst_start := some 0 } [] 4 0 0).cooldownWait
        = 6 ∧
    (wait_if_needed defaultGovConfig false
        { initState with is_cooling_down := true, cooldown_until := 10,
                         burst_count := 3, burst_start := some 0 } [] 4 0 0).state.is_cooling_down
        = true ∧
    ¬ (wait_if_needed defaultGovConfig false
        { initState with is_cooling_down := true, cooldown_until := 10,
                         burst_count := 3, burst_start := some 0 } [] 4 0 0).state.burst_count
        = 0 := by
  norm_num [wait_if_needed, cooldownStep, quotaStep, spacingStep, burstStep,
    sleepWithProgress, initState, defaultGovConfig]

/-- C4 (amended): when burst detection sees a window older than 10
seconds it resets `burst_start` to the current `now` and sets
`burst_count` to 1 (counting the admission being processed), not to 0. -/
theorem burst_window_reset (cfg : GovConfig) (randomize : Bool)
    (s : RateLimitState) (hist : List ℚ) (now u hu bs : ℚ)
    (hbs : s.burst_start = some bs) (hgt : 10 < now - bs) :
    (wait_if_needed cfg randomize s hist now u hu).state.burst_count = 1 ∧
    (wait_if_needed cfg randomize s hist now u hu).state.burst_start = some now := by
  have hbs1 : (cooldownStep s now).1.burst_start = some bs := by
    rw [cooldownStep_burst_start]; exact hbs
  have hb : burstStep cfg (cooldownStep s now).1 now
      = ({ (cooldownStep s now).1 with burst_start := some now, burst_count := 1 }, 0) := by
    unfold burstStep
    rw [hbs1]
    simp only [if_neg (not_lt.mpr (by linarith : (10 : ℚ) ≤ now - bs))]
  constructor <;> simp [wait_if_needed, hb]

/-- Witness for C4 at a window started at 0 observed at `now = 11`. -/
theorem burst_window_reset_witness :
    (wait_if_needed defaultGovConfig false
        { initState with burst_start := some 0, burst_count := 5 } [] 11 0 0).state.burst_count
        = 1 ∧
    (wait_if_needed defaultGovConfig false
        { initState with burst_start := some 0, burst_count := 5 } [] 11 0 0).state.burst_start
        = some 11 :=
  burst_window_reset defaultGovConfig false
    { initState with burst_start := some 0, burst_count := 5 } [] 11 0 0 0
    rfl (by norm_num)

/-- Burst detection ignores the `cooldown_until` field: runs from states
differing only there produce the same burst bookkeeping and sleep. -/
lemma burstStep_cooldown_until_irrel (cfg : GovConfig) (s : RateLimitState)
    (now cu1 cu2 : ℚ) :
    (burstStep cfg { s with cooldown_until := cu1 } now).1.burst_count
        = (burstStep cfg { s with cooldown_until := cu2 } now).1.burst_count ∧
    (burstStep cfg { s with cooldown_until := cu1 } now).1.burst_start
        = (burstStep cfg { s with cooldown_until := cu2 } now).1.burst_start ∧
    (burstStep cfg { s with cooldown_until := cu1 } now).2
        = (burstStep cfg { s with cooldown_until := cu2 } now).2 := by
  unfold burstStep
  cases s.burst_start <;> simp
  split
  · split <;> simp
  · simp

/-- C2 (amended): every step of an admission call evaluates its
time-based conditions against the single `now` captured when the call
began; a wait performed by the cooldown step is not reflected in the
later steps.  Concretely, changing the cooldown deadline — and with it
the length of the first sleep — leaves the quota, spacing, burst and
humanization outcomes unchanged. -/
theorem later_steps_use_call_start_time (cfg : GovConfig) (randomize : Bool)
    (s : RateLimitState) (hist : List ℚ) (now u hu cu1 cu2 : ℚ)
    (hcool : s.is_cooling_down = true) (h1 : now < cu1) (h2 : now < cu2) :
    (wait_if_needed cfg randomize { s with cooldown_until := cu1 } hist now u hu).cooldownWait
        = sleepWithProgress (cu1 - now) ∧
    (wait_if_needed cfg randomize { s with cooldown_until := cu2 } hist now u hu).cooldownWait
        = sleepWithProgress (cu2 - now) ∧
    (wait_if_needed cfg randomize { s with cooldown_until := cu1 } hist now u hu).quotaWait
        = (wait_if_needed cfg randomize { s with cooldown_until := cu2 } hist now u hu).quotaWait ∧
    (wait_if_needed cfg randomize { s with cooldown_until := cu1 } hist now u hu).spacingWait
        = (wait_if_needed cfg randomize { s with cooldown_until := cu2 } hist now u hu).spacingWait ∧
    (wait_if_needed cfg randomize { s with cooldown_until := cu1 } hist now u hu).burstWait
        = (wait_if_needed cfg randomize { s with cooldown_until := cu2 } hist now u hu).burstWait ∧
    (wait_if_needed cfg randomize { s with cooldown_until := cu1 } hist now u hu).humanWait
        = (wait_if_needed cfg randomize { s with cooldown_until := cu2 } hist now u hu).humanWait ∧
    (wait_if_needed cfg randomize { s with cooldown_until := cu1 } hist now u hu).state.burst_count
        = (wait_if_needed cfg randomize { s with cooldown_until := cu2 } hist now u hu).state.burst_count ∧
    (wait_if_needed cfg randomize { s with cooldown_until := cu1 } hist now u hu).state.burst_start
        = (wait_if_needed cfg randomize { s with cooldown_until := cu2 } hist now u hu).state.burst_start := by
  have e1 : cooldownStep { s with cooldown_until := cu1 } now
      = ({ s with cooldown_until := cu1 }, sleepWithProgress (cu1 - now)) := by
    unfold cooldownStep
    simp [hcool, h1]
  have e2 : cooldownStep { s with cooldown_until := cu2 } now
      = ({ s with cooldown_until := cu2 }, sleepWithProgress (cu2 - now)) := by
    unfold cooldownStep
    simp [hcool, h2]
  obtain ⟨hb1, hb2, hb3⟩ := burstStep_cooldown_until_irrel cfg s now cu1 cu2
  refine ⟨?_, ?_, ?_, ?_, ?_, ?_, ?_, ?_⟩ <;>
    simp only [wait_if_needed, e1, e2]
  all_goals first
    | rfl
    | exact hb1
    | exact hb2
    | exact hb3

/-- Witness for C2 with cooldown deadlines 60 and 600 seen from `now = 0`. -/
theorem later_steps_use_call_start_time_witness :
    (wait_if_needed defaultGovConfig false
        { initState with is_cooling_down := true, last_request := some (-1),
                         cooldown_until := 60 } [] 0 0 0).cooldownWait
        = sleepWithProgress (60 - 0) ∧
    (wait_if_needed defaultGovConfig false
        { initState with is_cooling_down := true, last_request := some (-1),
                         cooldown_until := 600 } [] 0 0 0).cooldownWait
        = sleepWithProgress (600 - 0) ∧
    (wait_if_needed defaultGovConfig false
        { initState with is_cooling_down := true, last_request := some (-1),
                         cooldown_until := 60 } [] 0 0 0).quotaWait
        = (wait_if_needed defaultGovConfig false
        { initState with is_cooling_down := true, last_request := some (-1),
                         cooldown_until := 600 } [] 0 0 0).quotaWait ∧
    (wait_if_needed defaultGovConfig false
        { initState with is_cooling_down := true, last_request := some (-1),
                         cooldown_until := 60 } [] 0 0 0).spacingWait
        = (wait_if_needed defaultGovConfig false
        { initState with is_cooling_down := true, last_request := some (-1),
                         cooldown_until := 600 } [] 0 0 0).spacingWait ∧
    (wait_if_needed defaultGovConfig false
        { initState with is_cooling_down := true, last_request := some (-1),
                         cooldown_until := 60 } [] 0 0 0).burstWait
        = (wait_if_needed defaultGovConfig false
        { initState with is_cooling_down := true, last_request := some (-1),
                         cooldown_until := 600 } [] 0 0 0).burstWait ∧
    (wait_if_needed defaultGovConfig false
        { initState with is_cooling_down := true, last_request := some (-1),
                         cooldown_until := 60 } [] 0 0 0).humanWait
        = (wait_if_needed defaultGovConfig false
        { initState with is_cooling_down := true, last_request := some (-1),
                         cooldown_until := 600 } [] 0 0 0).humanWait ∧
    (wait_if_needed defaultGovConfig false
        { initState with is_cooling_down := true, last_request := some (-1),
                         cooldown_until := 60 } [] 0 0 0).state.burst_count
        = (wait_if_needed defaultGovConfig false
        { initState with is_cooling_down := true, last_request := some (-1),
                         cooldown_until := 600 } [] 0 0 0).state.burst_count ∧
    (wait_if_needed defaultGovConfig false
        { initState with is_cooling_down := true, last_request := some (-1),
                         cooldown_until := 60 } [] 0 0 0).state.burst_start
        = (wait_if_needed defaultGovConfig false
        { initState with is_cooling_down := true, last_request := some (-1),
                         cooldown_until := 600 } [] 0 0 0).state.burst_start :=
  later_steps_use_call_start_time defaultGovConfig false
    { initState with is_cooling_down := true, last_request := some (-1) }
    [] 0 0 0 60 600 rfl (by norm_num) (by norm_num)

/-- C2 counterexample: a call beginning at `now = 0` in a cooldown
lasting until 60 with `last_request = -1` sleeps 60 seconds in the
cooldown step and then still sleeps 1 second in the spacing step,
although measured after the cooldown wait the elapsed time since the
last request (61 s) is not below `min_delay` — the spacing condition was
evaluated against the time captured when the call began. -/
theorem spacing_evaluates_stale_now :
    (wait_if_needed defaultGovConfig false
        { initState with is_cooling_down := true, cooldown_until := 60,
                         last_request := some (-1) } [] 0 0 0).cooldownWait = 60 ∧
    (wait_if_needed defaultGovConfig false
        { initState with is_cooling_down := true, cooldown_until := 60,
                         last_request := some (-1) } [] 0 0 0).spacingWait = 1 ∧
    ¬ ((0 : ℚ) + (wait_if_needed defaultGovConfig false
        { initState with is_cooling_down := true, cooldown_until := 60,
                         last_request := some (-1) } [] 0 0 0).cooldownWait - (-1)
        < defaultGovConfig.min_delay) := by
  norm_num [wait_if_needed, cooldownStep, quotaStep, spacingStep, burstStep,
    sleepWithProgress, initState, defaultGovConfig]

/-- C3 (amended): when the trailing-hour entries reach
`requests_per_hour` the quota step computes the wait `D = min(recent) +
1 hour - now` but realizes it through the sleep helper, so the slept
duration equals `D` only when it is below 5 seconds and is its floor
otherwise — within one second below `D` in all cases; the humanization
step — always on, since `randomize_timing` is constantly true in the
source — then adds exactly the drawn `hu`, so the call resumes before
`min(recent) + 1 hour` whenever `hu` is smaller than `D` minus the
realized quota sleep. -/
theorem quota_wait_floored (cfg : GovConfig)
    (s : RateLimitState) (hist : List ℚ) (now u hu : ℚ)
    (h : cfg.requests_per_hour ≤ (hist.filter (fun t => now - 3600 < t)).length) :
    (wait_if_needed cfg true s hist now u hu).quotaWait
        = sleepWithProgress
            (pythonMin (hist.filter (fun t => now - 3600 < t)) + 3600 - now) ∧
    pythonMin (hist.filter (fun t => now - 3600 < t)) + 3600 - now - 1
        < (wait_if_needed cfg true s hist now u hu).quotaWait ∧
    (wait_if_needed cfg true s hist now u hu).quotaWait
        ≤ pythonMin (hist.filter (fun t => now - 3600 < t)) + 3600 - now ∧
    (wait_if_needed cfg true s hist now u hu).humanWait = hu ∧
    (hu < pythonMin (hist.filter (fun t => now - 3600 < t)) + 3600 - now
          - (wait_if_needed cfg true s hist now u hu).quotaWait →
      now + (wait_if_needed cfg true s hist now u hu).quotaWait
          + (wait_if_needed cfg true s hist now u hu).humanWait
        < pythonMin (hist.filter (fun t => now - 3600 < t)) + 3600) := by
  have hq : (wait_if_needed cfg true s hist now u hu).quotaWait
      = sleepWithProgress
          (pythonMin (hist.filter (fun t => now - 3600 < t)) + 3600 - now) := by
    show quotaStep cfg hist now = _
    unfold quotaStep
    simp [h]
  have hh : (wait_if_needed cfg true s hist now u hu).humanWait = hu := rfl
  refine ⟨hq, ?_, ?_, hh, ?_⟩
  · rw [hq]
    exact sub_one_lt_sleepWithProgress _
  · rw [hq]
    exact sleepWithProgress_le _
  · intro hlt
    rw [hh]
    linarith

/-- Witness for C3 with quota 2, history `[9/10, 9/10]`, `now = 3595`
and humanization draw 1/2: the computed wait is 5.9 s, the realized
quota sleep its floor 5 s. -/
theorem quota_wait_floored_witness :
    (wait_if_needed ⟨2, 2, 10, 60⟩ true initState [9/10, 9/10] 3595 0 (1/2)).quotaWait
        = sleepWithProgress
            (pythonMin (([9/10, 9/10] : List ℚ).filter (fun t => (3595 : ℚ) - 3600 < t)) + 3600 - 3595) ∧
    pythonMin (([9/10, 9/10] : List ℚ).filter (fun t => (3595 : ℚ) - 3600 < t)) + 3600 - 3595 - 1
        < (wait_if_needed ⟨2, 2, 10, 60⟩ true initState [9/10, 9/10] 3595 0 (1/2)).quotaWait ∧
    (wait_if_needed ⟨2, 2, 10, 60⟩ true initState [9/10, 9/10] 3595 0 (1/2)).quotaWait
        ≤ pythonMin (([9/10, 9/10] : List ℚ).filter (fun t => (3595 : ℚ) - 3600 < t)) + 3600 - 3595 ∧
    (wait_if_needed ⟨2, 2, 10, 60⟩ true initState [9/10, 9/10] 3595 0 (1/2)).humanWait = 1/2 ∧
    ((1 : ℚ)/2 < pythonMin (([9/10, 9/10] : List ℚ).filter (fun t => (3595 : ℚ) - 3600 < t)) + 3600 - 3595
          - (wait_if_needed ⟨2, 2, 10, 60⟩ true initState [9/10, 9/10] 3595 0 (1/2)).quotaWait →
      (3595 : ℚ) + (wait_if_needed ⟨2, 2, 10, 60⟩ true initState [9/10, 9/10] 3595 0 (1/2)).quotaWait
          + (wait_if_needed ⟨2, 2, 10, 60⟩ true initState [9/10, 9/10] 3595 0 (1/2)).humanWait
        < pythonMin (([9/10, 9/10] : List ℚ).filter (fun t => (3595 : ℚ) - 3600 < t)) + 3600) :=
  quota_wait_floored ⟨2, 2, 10, 60⟩ initState [9/10, 9/10] 3595 0 (1/2)
    (by norm_num [List.filter])

/-- C3 counterexample, with the humanization step on as it always is in
the source (`randomize_timing` is constantly true) and its draw at 1/2 —
a value `uniform(0.5, 2.0)` can return: with quota 2 and two history
entries at time 9/10, a call at `now = 3595` computes the quota wait
5.9 s but sleeps only its floor 5 s, then adds the 0.5 s humanization
delay, so it resumes at 3600.5 — strictly before `min(recent) + 1 hour
= 3600.9` — and recording the request at resumption puts 3 > 2 entries
inside the trailing hour, violating the sliding-window bound. -/
theorem quota_window_can_overflow :
    totalWait (wait_if_needed ⟨2, 2, 10, 60⟩ true initState [9/10, 9/10] 3595 0 (1/2)) = 11/2 ∧
    (3595 : ℚ) + totalWait (wait_if_needed ⟨2, 2, 10, 60⟩ true initState [9/10, 9/10] 3595 0 (1/2))
        < pythonMin (([9/10, 9/10] : List ℚ).filter (fun t => (3595 : ℚ) - 3600 < t)) + 3600 ∧
    ((dequeAppend [9/10, 9/10]
        ((3595 : ℚ) + totalWait (wait_if_needed ⟨2, 2, 10, 60⟩ true initState [9/10, 9/10] 3595 0 (1/2)))).filter
        (fun t => ((3595 : ℚ) + totalWait (wait_if_needed ⟨2, 2, 10, 60⟩ true initState [9/10, 9/10] 3595 0 (1/2))) - 3600 < t)).length
        = 3 ∧
    (⟨2, 2, 10, 60⟩ : GovConfig).requests_per_hour < 3 := by
  norm_num [wait_if_needed, cooldownStep, quotaStep, spacingStep, burstStep,
    sleepWithProgress, pythonMin, totalWait, dequeAppend, initState, List.filter]

/-- C5: when `last_request` is set and less than `min_delay` has elapsed
the spacing step sleeps `(min_delay - elapsed) * (1 + u)` for the jitter
draw `u ∈ [-0.3, 0.3]` (the clamp to 0 never binds there), and for every
such draw the resumption time stays at least `min_delay * (1 - 0.3)`
after the previous request. -/
theorem spacing_jittered (cfg : GovConfig) (randomize : Bool)
    (s : RateLimitState) (hist : List ℚ) (now u hu lr : ℚ)
    (hlr : s.last_request = some lr) (hu1 : -(3/10) ≤ u) (hu2 : u ≤ 3/10)
    (hln : lr ≤ now) (hmd : 0 ≤ cfg.min_delay) :
    (now - lr < cfg.min_delay →
      (wait_if_needed cfg randomize s hist now u hu).spacingWait
          = (cfg.min_delay - (now - lr)) * (1 + u)) ∧
    cfg.min_delay * (1 - 3/10)
        ≤ now + (wait_if_needed cfg randomize s hist now u hu).spacingWait - lr := by
  have hlr1 : (cooldownStep s now).1.last_request = some lr := by
    rw [cooldownStep_last_request]; exact hlr
  have hsw : (wait_if_needed cfg randomize s hist now u hu).spacingWait
      = spacingStep cfg (cooldownStep s now).1 now u := rfl
  by_cases hcase : now - lr < cfg.min_delay
  · have hw0 : 0 ≤ cfg.min_delay - (now - lr) := by linarith
    have hprod : 0 ≤ (u + 3/10) * (cfg.min_delay - (now - lr)) :=
      mul_nonneg (by linarith) hw0
    have hpos : 0 ≤ (cfg.min_delay - (now - lr)) + u * (cfg.min_delay - (now - lr)) := by
      nlinarith
    have hw : spacingStep cfg (cooldownStep s now).1 now u
        = (cfg.min_delay - (now - lr)) + u * (cfg.min_delay - (now - lr)) := by
      unfold spacingStep
      rw [hlr1]
      simp [hcase, max_eq_right hpos]
    constructor
    · intro _
      rw [hsw, hw]
      ring
    · rw [hsw, hw]
      nlinarith
  · have hw : spacingStep cfg (cooldownStep s now).1 now u = 0 := by
      unfold spacingStep
      rw [hlr1]
      simp [hcase]
    constructor
    · intro hcon
      exact absurd hcon hcase
    · rw [hsw, hw]
      push_neg at hcase
      nlinarith

/-- Witness for C5: last request at 0, `now = 1`, zero jitter draw. -/
theorem spacing_jittered_witness :
    ((1 : ℚ) - 0 < defaultGovConfig.min_delay →
      (wait_if_needed defaultGovConfig false
          { initState with last_request := some 0 } [] 1 0 0).spacingWait
          = (defaultGovConfig.min_delay - ((1 : ℚ) - 0)) * (1 + 0)) ∧
    defaultGovConfig.min_delay * (1 - 3/10)
        ≤ 1 + (wait_if_needed defaultGovConfig false
            { initState with last_request := some 0 } [] 1 0 0).spacingWait - 0 :=
  spacing_jittered defaultGovConfig false
    { initState with last_request := some 0 } [] 1 0 0 0
    rfl (by norm_num) (by norm_num) (by norm_num)
    (by norm_num [defaultGovConfig])

/-- C4 counterexample: with a burst window started at time 0 and `now =
11` (more than 10 seconds elapsed) the call resets `burst_count` to 1,
not to 0 as the claim states. -/
theorem burst_reset_is_one_not_zero :
    (wait_if_needed defaultGovConfig false
        { initState with burst_start := some 0, burst_count := 7 } [] 11 0 0).state.burst_count
        = 1 ∧
    ¬ (wait_if_needed defaultGovConfig false
        { initState with burst_start := some 0, burst_count := 7 } [] 11 0 0).state.burst_count
        = 0 := by
  norm_num [wait_if_needed, cooldownStep, quotaStep, spacingStep, burstStep,
    initState, defaultGovConfig]

/-- C6: for every attempt index and jitter draw the backoff delay is
`min maxDelay (baseDelay * exponentialBase ^ attempt * (1 + u))`; with
zero jitter the delays are strictly increasing while below `maxDelay`,
and from attempt 6 on (default configuration) the delay is exactly
`maxDelay = 300`. -/
theorem backoff_delay_formula (k : ℕ) (u : ℚ)
    (hu1 : -(3/10) ≤ u) (hu2 : u ≤ 3/10) :
    nextDelay defaultRetryConfig k u = min 300 (5 * 2 ^ k * (1 + u)) ∧
    (nextDelay defaultRetryConfig k 0 < 300 →
      nextDelay defaultRetryConfig k 0 < nextDelay defaultRetryConfig (k + 1) 0) ∧
    (6 ≤ k → nextDelay defaultRetryConfig k 0 = 300) := by
  have hpow : (0 : ℚ) < 2 ^ k := by positivity
  have base : ∀ n : ℕ, nextDelay defaultRetryConfig n 0 = min (5 * 2 ^ n) 300 := by
    intro n
    unfold nextDelay
    norm_num [defaultRetryConfig]
  refine ⟨?_, ?_, ?_⟩
  · unfold nextDelay
    show min (defaultRetryConfig.base_delay * defaultRetryConfig.exponential_base ^ k
        + u * (defaultRetryConfig.base_delay * defaultRetryConfig.exponential_base ^ k))
        defaultRetryConfig.max_delay = _
    rw [show defaultRetryConfig.base_delay = (5 : ℚ) from rfl,
        show defaultRetryConfig.exponential_base = (2 : ℚ) from rfl,
        show defaultRetryConfig.max_delay = (300 : ℚ) from rfl, min_comm]
    congr 1
    ring
  · rw [base k, base (k + 1)]
    intro h
    have h5 : (5 : ℚ) * 2 ^ k < 300 := by
      rcases min_lt_iff.mp h with h' | h'
      · exact h'
      · linarith
    rw [min_eq_left (le_of_lt h5)]
    apply lt_min
    · have h2 : (5 : ℚ) * 2 ^ (k + 1) = 2 * (5 * 2 ^ k) := by ring
      rw [h2]
      linarith
    · exact h5
  · intro hk
    rw [base k]
    apply min_eq_right
    have h64 : (2 : ℚ) ^ 6 ≤ 2 ^ k := pow_le_pow_right₀ (by norm_num) hk
    calc (300 : ℚ) ≤ 5 * 2 ^ 6 := by norm_num
      _ ≤ 5 * 2 ^ k := by linarith

/-- Witness for C6 at attempt 3 with zero jitter. -/
theorem backoff_delay_formula_witness :
    nextDelay defaultRetryConfig 3 0 = min 300 (5 * 2 ^ 3 * (1 + 0)) ∧
    (nextDelay defaultRetryConfig 3 0 < 300 →
      nextDelay defaultRetryConfig 3 0 < nextDelay defaultRetryConfig (3 + 1) 0) ∧
    (6 ≤ 3 → nextDelay defaultRetryConfig 3 0 = 300) :=
  backoff_delay_formula 3 0 (by norm_num) (by norm_num)

/-- C7: an error classified non-retryable-terminal on the first attempt
under `max_attempts = 3` propagates at once: the wrapped operation runs
exactly once and no backoff sleep happens. -/
theorem nonretryable_short_circuit {α : Type} (op : ℕ → Except ErrClass α)
    (js : ℕ → ℚ) (e : ErrClass) (hop : op 0 = Except.error e)
    (he : e.isNonRetryableTerminal = true) :
    (retry_with_backoff defaultRetryConfig 3 op js).result
        = some (Except.error e) ∧
    (retry_with_backoff defaultRetryConfig 3 op js).calls = 1 ∧
    (retry_with_backoff defaultRetryConfig 3 op js).sleeps = [] := by
  have hreq : e.isRequestException = false := by
    cases e <;> simp_all [ErrClass.isNonRetryableTerminal, ErrClass.isRequestException]
  have hrun : retry_with_backoff defaultRetryConfig 3 op js
      = ⟨some (Except.error e), 1, []⟩ := by
    simp [retry_with_backoff, retryGo, hop, hreq, he]
  rw [hrun]
  exact ⟨rfl, rfl, rfl⟩

/-- Witness for C7 with a profile-not-found error. -/
theorem nonretryable_short_circuit_witness :
    (retry_with_backoff defaultRetryConfig 3
        (fun _ => (Except.error ErrClass.profileNotExists : Except ErrClass ℕ))
        (fun _ => 0)).result = some (Except.error ErrClass.profileNotExists) ∧
    (retry_with_backoff defaultRetryConfig 3
        (fun _ => (Except.error ErrClass.profileNotExists : Except ErrClass ℕ))
        (fun _ => 0)).calls = 1 ∧
    (retry_with_backoff defaultRetryConfig 3
        (fun _ => (Except.error ErrClass.profileNotExists : Except ErrClass ℕ))
        (fun _ => 0)).sleeps = [] :=
  nonretryable_short_circuit _ _ ErrClass.profileNotExists rfl rfl

/-- C8 (amended): an operation failing with the same retryable error on
every attempt under `max_attempts = 3` is invoked exactly 3 times, two
backoff sleeps happen, and the last error is then re-raised unchanged —
exhaustion is only logged, no retry-exhausted tag is attached to what
the caller receives. -/
theorem retry_exhaustion {α : Type} (e : ErrClass) (js : ℕ → ℚ)
    (he : e.isNonRetryableTerminal = false) :
    retry_with_backoff defaultRetryConfig 3
        (fun _ => (Except.error e : Except ErrClass α)) js
      = ⟨some (Except.error e), 3,
         [nextDelay defaultRetryConfig 0 (js 0), nextDelay defaultRetryConfig 1 (js 1)]⟩ := by
  cases e <;>
    simp_all [retry_with_backoff, retryGo,
      ErrClass.isRequestException, ErrClass.isNonRetryableTerminal]

/-- Witness for C8 with a connection error and zero jitter draws. -/
theorem retry_exhaustion_witness :
    retry_with_backoff defaultRetryConfig 3
        (fun _ => (Except.error ErrClass.connectionError : Except ErrClass ℕ))
        (fun _ => 0)
      = ⟨some (Except.error ErrClass.connectionError), 3,
         [nextDelay defaultRetryConfig 0 0, nextDelay defaultRetryConfig 1 0]⟩ :=
  retry_exhaustion ErrClass.connectionError (fun _ => 0) rfl

/-- C8 counterexample: an operation that always fails with a generic
transient error under `max_attempts = 3` is invoked 3 times, and the
value that propagates is the original error itself, bare — `some
(Except.error generic)` — with no retry-exhausted marker attached, so
nothing in the propagated value distinguishes exhaustion beyond the
class of the error. -/
theorem exhaustion_propagates_untagged :
    retry_with_backoff defaultRetryConfig 3
        (fun _ => (Except.error ErrClass.generic : Except ErrClass ℕ)) (fun _ => 0)
      = ⟨some (Except.error ErrClass.generic), 3, [5, 10]⟩ := by
  norm_num [retry_with_backoff, retryGo, nextDelay, defaultRetryConfig,
    ErrClass.isRequestException, ErrClass.isNonRetryableTerminal]

/-- C9: `record_request` appends the current timestamp to the bounded
history, sets `last_request`, and increments the monotone counter; the
history stays at most 200 long, stays in non-decreasing order when the
clock is monotone, and the counter never decreases. -/
theorem record_request_contract (s : RateLimitState) (hist : List ℚ) (now : ℚ)
    (hlen : hist.length ≤ 200) (hsorted : List.Pairwise (· ≤ ·) hist)
    (hub : ∀ t ∈ hist, t ≤ now) :
    (record_request s hist now).2 = dequeAppend hist now ∧
    (record_request s hist now).1.last_request = some now ∧
    (record_request s hist now).1.requests_made = s.requests_made + 1 ∧
    (record_request s hist now).2.length ≤ 200 ∧
    List.Pairwise (· ≤ ·) (record_request s hist now).2 ∧
    s.requests_made ≤ (record_request s hist now).1.requests_made := by
  have hp2 : List.Pairwise (· ≤ ·) (hist ++ [now]) := by
    rw [List.pairwise_append]
    refine ⟨hsorted, List.pairwise_singleton _ _, ?_⟩
    intro a ha b hb
    rw [List.mem_singleton] at hb
    subst hb
    exact hub a ha
  refine ⟨rfl, rfl, rfl, ?_, ?_, Nat.le_succ _⟩
  · show (if (hist ++ [now]).length ≤ 200 then hist ++ [now]
        else List.drop ((hist ++ [now]).length - 200) (hist ++ [now])).length ≤ 200
    split
    · assumption
    · rw [List.length_drop]
      omega
  · show List.Pairwise (· ≤ ·) (if (hist ++ [now]).length ≤ 200 then hist ++ [now]
        else List.drop ((hist ++ [now]).length - 200) (hist ++ [now]))
    split
    · exact hp2
    · exact List.Pairwise.sublist (List.drop_sublist _ _) hp2

/-- Witness for C9 recording time 3 over history `[1, 2]`. -/
theorem record_request_contract_witness :
    (record_request initState [1, 2] 3).2 = dequeAppend [1, 2] 3 ∧
    (record_request initState [1, 2] 3).1.last_request = some 3 ∧
    (record_request initState [1, 2] 3).1.requests_made = initState.requests_made + 1 ∧
    (record_request initState [1, 2] 3).2.length ≤ 200 ∧
    List.Pairwise (· ≤ ·) (record_request initState [1, 2] 3).2 ∧
    initState.requests_made ≤ (record_request initState [1, 2] 3).1.requests_made :=
  record_request_contract initState [1, 2] 3 (by norm_num)
    (by norm_num [List.pairwise_cons])
    (by intro t ht; rcases List.mem_cons.mp ht with h | h
        · subst h; norm_num
        · rcases List.mem_cons.mp h with h2 | h2
          · subst h2; norm_num
          · simp at h2)

end Scanagram
